import Mathlib

/-!
Verification development for the Asterisk AI voice agent core.

Shallow embedding of the components the specification's claims refer to:
* `src/audio/resampler.py` (`resample_audio`),
* `src/tools/parser.py` (`parse_tool_calls`, `_extract_json_object`,
  `validate_tool_call`),
* `src/providers/local.py` (`_emit_local_llm_result`,
  `_process_llm_text_fallback`, the structured tool gateway claim/timeout
  logic, `_send_loop` retry structure),
* `src/core/streaming_playback_manager.py` (threshold derivation and
  clamping, `_cleanup_stream`, `stop_streaming_playback`).

Machine integers are modelled as `Int`/`Nat`; audio sample values and the
interpolation arithmetic of the resampler are modelled over `Rat` (the
Python code computes in float64; the rational model captures the intended
exact arithmetic of the algorithm).  Byte strings of PCM16 audio are
modelled as their decoded lists of int16 samples.
-/

/- ## Resampler: `src/audio/resampler.py`, `resample_audio` -/

/-- Python's built-in `round` (round half to even, "banker's rounding"),
as used by `int(round(n_in * target_rate / source_rate))`. -/
def pyRound (q : ℚ) : ℤ :=
  let f : ℤ := q.floor
  let frac : ℚ := q - (f : ℚ)
  if frac < 1/2 then f
  else if 1/2 < frac then f + 1
  else if f % 2 = 0 then f else f + 1

/-- Embedding of `numpy.interp(pos, arange(len fp), fp)`: piecewise-linear interpolation
with clamping outside the sample range. -/
def npInterp (pos : ℚ) (fp : List ℚ) : ℚ :=
  match fp with
  | [] => 0
  | f0 :: _ =>
    if pos ≤ 0 then f0
    else if ((fp.length : ℚ) - 1) ≤ pos then (fp.getLast?).getD 0
    else
      let i : ℕ := pos.floor.toNat
      let y0 := fp.getD i 0
      let y1 := fp.getD (i + 1) 0
      y0 + (pos - (i : ℚ)) * (y1 - y0)

/-- Truncation toward zero, as performed by `.astype(np.int16)` on an
in-range float. -/
def truncTowardZero (q : ℚ) : ℤ :=
  if 0 ≤ q then q.floor else -((-q).floor)

/-- Embedding of `np.clip(x, -32768, 32767).astype(np.int16)` applied to one sample. -/
def clipInt16 (q : ℚ) : ℤ :=
  truncTowardZero (max (-32768) (min 32767 q))

/-- Embedding of `resample_audio(pcm_bytes, source_rate, target_rate, state=state)`.
The PCM16 byte string is represented by its decoded int16 sample list; the
carry-over `state` tuple `(prev_last_sample_float,)` is `Option ℚ`.
Mirrors the source line by line:
* empty input or equal rates: return the input and the state as they are;
* `n_out = int(round(n_in * target_rate / source_rate))`, empty result
  (state passed through) when zero;
* with carried state the previous chunk's last sample is prepended and the
  output positions are `k * step` for `k = 1 .. n_out`; without state the
  positions are `k * step` for `k = 0 .. n_out - 1`;
* the new state is the last raw input sample; output samples are clipped
  to int16. -/
def resample_audio (pcm : List ℤ) (source_rate target_rate : ℕ)
    (state : Option ℚ) : List ℤ × Option ℚ :=
  if pcm = [] ∨ source_rate = target_rate then (pcm, state)
  else
    let audio : List ℚ := pcm.map (fun (s : ℤ) => (s : ℚ))
    let n_in : ℕ := audio.length
    let n_out : ℕ := (pyRound ((n_in : ℚ) * (target_rate : ℚ) / (source_rate : ℚ))).toNat
    if n_out = 0 then ([], state)
    else
      let step : ℚ := (n_in : ℚ) / (n_out : ℚ)
      let resampled : List ℚ :=
        match state with
        | some prev_last =>
          let extended := prev_last :: audio
          (List.range n_out).map (fun (k : ℕ) => npInterp (((k : ℚ) + 1) * step) extended)
        | none =>
          (List.range n_out).map (fun (k : ℕ) => npInterp ((k : ℚ) * step) audio)
      let new_state : Option ℚ := some ((audio.getLast?).getD 0)
      (resampled.map clipInt16, new_state)

/- ## Tool-call parser: `src/tools/parser.py` -/

/-- The opening-brace character (ASCII 123), written by code point to keep
string literals brace-free. -/
def lbraceChar : Char := Char.ofNat 123

/-- The closing-brace character (ASCII 125). -/
def rbraceChar : Char := Char.ofNat 125

/-- Python `\s` on ASCII text (space, tab, newline, carriage return,
vertical tab, form feed). -/
def isWsChar (c : Char) : Bool :=
  c == ' ' || c == '\t' || c == '\n' || c == '\r' || c == Char.ofNat 11 || c == Char.ofNat 12

/-- ASCII lowercasing of one character, for `re.IGNORECASE` matching. -/
def lowerChar (c : Char) : Char := c.toLower

/-- Word character of the named-tag pattern: `[a-zA-Z0-9_]`. -/
def isWordChar (c : Char) : Bool :=
  (('a' ≤ c && c ≤ 'z') || ('A' ≤ c && c ≤ 'Z') || ('0' ≤ c && c ≤ '9') || c == '_')

/-- Whether `pat` is a prefix of `s` (case-sensitive). -/
def startsWithList : List Char → List Char → Bool
  | [], _ => true
  | _ :: _, [] => false
  | p :: ps, c :: cs => p == c && startsWithList ps cs

/-- Whether `pat` is a prefix of `s`, ASCII case-insensitively. -/
def startsWithCI (pat s : List Char) : Bool :=
  startsWithList (pat.map lowerChar) (s.map lowerChar)

/-- Drop the (maximal) leading run of whitespace: the greedy `\s*`. -/
def dropWs (s : List Char) : List Char := s.dropWhile (fun c => isWsChar c)

/-- Whether `pat` occurs somewhere in `s` (case-sensitive substring search). -/
def containsSub (pat : List Char) : List Char → Bool
  | [] => startsWithList pat []
  | s@(_ :: rest) => startsWithList pat s || containsSub pat rest

/-- Lazy scan of a regex fragment `.*?c` under `re.DOTALL`: find the
shortest split of `s` ending at a `close` character whose remaining suffix
satisfies `cond`; returns the consumed characters (including the closing
one) and the suffix after it.  This is the backtracking behaviour of the
non-greedy bodies in the source's patterns. -/
def lazyScanClose (close : Char) (cond : List Char → Bool) : List Char → Option (List Char × List Char)
  | [] => none
  | c :: rest =>
    if c == close && cond rest then some ([c], rest)
    else
      match lazyScanClose close cond rest with
      | some (grp, after) => some (c :: grp, after)
      | none => none

/-- Generic fuel-bounded `findall`/`finditer` driver: try `matchAt` at every
position left to right; on a match, resume after the matched text
(non-overlapping matches, as in `re`).  The fuel is an upper bound on the
scan length; every match consumes at least one character. -/
def scanFindallAux (matchAt : List Char → Option (α × List Char)) : ℕ → List Char → List α
  | 0, _ => []
  | _, [] => []
  | fuel + 1, s@(_ :: rest) =>
    match matchAt s with
    | some (a, after) => a :: scanFindallAux matchAt fuel after
    | none => scanFindallAux matchAt fuel rest

/-- Run the driver with sufficient fuel. -/
def scanFindall (matchAt : List Char → Option (α × List Char)) (s : List Char) : List α :=
  scanFindallAux matchAt (s.length + 1) s

/-- The literal `<tool_call>` tag. -/
def openToolTag : List Char := "<tool_call>".data

/-- The literal `</tool_call>` tag. -/
def closeToolTag : List Char := "</tool_call>".data

/-- Match `TOOL_CALL_PATTERN` at the head of `s`:
`<tool_call>\s*(BRACE.*?BRACE)\s*</tool_call>` with `DOTALL | IGNORECASE`,
where the group is the shortest brace-delimited text followed (after
whitespace) by the closing tag.  Returns the captured group and the suffix
after the whole match. -/
def matchToolCallAt (s : List Char) : Option (List Char × List Char) :=
  if startsWithCI openToolTag s then
    match dropWs (s.drop openToolTag.length) with
    | c :: rest =>
      if c == lbraceChar then
        match lazyScanClose rbraceChar (fun suf => startsWithCI closeToolTag (dropWs suf)) rest with
        | some (grp, after) => some (lbraceChar :: grp, (dropWs after).drop closeToolTag.length)
        | none => none
      else none
    | [] => none
  else none

/-- Match `NAMED_TOOL_CALL_PATTERN` at the head of `s`:
`<(?P<tag>[a-zA-Z0-9_]+)>\s*(?P<json>BRACE.*?BRACE)\s*</(?P=tag)>` with
`DOTALL` (case-sensitive).  Returns `((tag, json), suffix)`. -/
def matchNamedTagAt (s : List Char) : Option ((List Char × List Char) × List Char) :=
  match s with
  | '<' :: rest =>
    let tag := rest.takeWhile (fun c => isWordChar c)
    if tag.isEmpty then none
    else
      match rest.drop tag.length with
      | '>' :: rest2 =>
        match dropWs rest2 with
        | c :: rest3 =>
          if c == lbraceChar then
            let closePat : List Char := '<' :: '/' :: (tag ++ ['>'])
            match lazyScanClose rbraceChar (fun suf => startsWithList closePat (dropWs suf)) rest3 with
            | some (grp, after) =>
              some ((tag, lbraceChar :: grp), (dropWs after).drop closePat.length)
            | none => none
          else none
        | [] => none
      | _ => none
  | _ => none

/-- Match `TOOL_CALL_TAG_PATTERN` (`</?tool_call>`, `IGNORECASE`) at the
head of `s`; the produced value is the suffix at `match.end()`. -/
def matchToolTagAt (s : List Char) : Option (List Char × List Char) :=
  if startsWithCI closeToolTag s then
    some (s.drop closeToolTag.length, s.drop closeToolTag.length)
  else if startsWithCI openToolTag s then
    some (s.drop openToolTag.length, s.drop openToolTag.length)
  else none

/-- Match `FUNCTOOLS_PATTERN` (`functools\[(\[.*?\])\]`, `DOTALL | IGNORECASE`)
at the head of `s`; returns the bracketed group and the suffix. -/
def matchFunctoolsAt (s : List Char) : Option (List Char × List Char) :=
  if startsWithCI "functools[".data s then
    match s.drop "functools[".length with
    | '[' :: rest =>
      match lazyScanClose ']' (fun suf => startsWithList [']'] suf) rest with
      | some (grp, after) => some ('[' :: grp, after.drop 1)
      | none => none
    | _ => none
  else none

/-- Match `JSON_FUNCTION_PATTERN` at the head of `s`:
an object literal of the shape
`BRACE "function" : "<name>" , "function_parameters" : BRACE...BRACE BRACE`
with `\s*` between the tokens.  Returns `((name, params_json), suffix)`. -/
def matchJsonFunctionAt (s : List Char) : Option ((List Char × List Char) × List Char) :=
  match s with
  | c0 :: rest0 =>
    if c0 == lbraceChar then
      let s1 := dropWs rest0
      if startsWithList "\"function\"".data s1 then
        let s2 := dropWs (s1.drop "\"function\"".length)
        match s2 with
        | ':' :: rest2 =>
          match dropWs rest2 with
          | '"' :: rest3 =>
            let fname := rest3.takeWhile (fun c => !(c == '"'))
            if fname.isEmpty then none
            else
              match rest3.drop fname.length with
              | '"' :: rest4 =>
                let s5 := dropWs rest4
                match s5 with
                | ',' :: rest5 =>
                  let s6 := dropWs rest5
                  if startsWithList "\"function_parameters\"".data s6 then
                    match dropWs (s6.drop "\"function_parameters\"".length) with
                    | ':' :: rest6 =>
                      match dropWs rest6 with
                      | c7 :: rest7 =>
                        if c7 == lbraceChar then
                          match lazyScanClose rbraceChar
                              (fun suf => startsWithList [rbraceChar] (dropWs suf)) rest7 with
                          | some (grp, after) =>
                            some ((fname, lbraceChar :: grp), (dropWs after).drop 1)
                          | none => none
                        else none
                      | [] => none
                    | _ => none
                  else none
                | _ => none
              | _ => none
          | _ => none
        | _ => none
      else none
    else none
  | [] => none

/-- Python/JSON values as far as the parser inspects them.  A JSON `null`
and an absent dictionary key are conflated (both are Python `None`). -/
inductive PyJson where
  | null : PyJson
  | bool (b : Bool) : PyJson
  | num (q : ℚ) : PyJson
  | str (s : String) : PyJson
  | arr (xs : List PyJson) : PyJson
  | obj (fields : List (String × PyJson)) : PyJson

/-- Python `d.get(k)` on a parsed JSON object (`None`, i.e. `.null`, when absent). -/
def pyGetN (fields : List (String × PyJson)) (k : String) : PyJson :=
  match fields with
  | [] => PyJson.null
  | (k', v) :: rest => if k' == k then v else pyGetN rest k

/-- Python `k in d` on a parsed JSON object. -/
def pyHasKey (fields : List (String × PyJson)) (k : String) : Bool :=
  match fields with
  | [] => false
  | (k', _) :: rest => k' == k || pyHasKey rest k

/-- Python truthiness of a JSON value. -/
def pyTruthy : PyJson → Bool
  | PyJson.null => false
  | PyJson.bool b => b
  | PyJson.num q => !(q == 0)
  | PyJson.str s => !(s.isEmpty)
  | PyJson.arr xs => !xs.isEmpty
  | PyJson.obj fs => !fs.isEmpty

/-- Python `isinstance(v, dict)`. -/
def pyIsDict : PyJson → Bool
  | PyJson.obj _ => true
  | _ => false

/-- Python `v is None`. -/
def pyIsNull : PyJson → Bool
  | PyJson.null => true
  | _ => false

/-- A parsed tool call as built by `parse_tool_calls`: a dictionary with
`name` and `parameters` entries (each an arbitrary JSON value). -/
structure PyToolCall where
  name : PyJson
  parameters : PyJson

/-- The brace-matching loop of `_extract_json_object`, mirroring the
source's `depth` / `in_string` / `escape` bookkeeping.  Returns the scanned
characters up to and including the brace that returns the depth to zero. -/
def braceScanAux : List Char → ℕ → Bool → Bool → List Char → Option (List Char)
  | [], _, _, _, _ => none
  | c :: rest, depth, inStr, esc, acc =>
    if inStr then
      if esc then braceScanAux rest depth inStr false (c :: acc)
      else if c == '\\' then braceScanAux rest depth inStr true (c :: acc)
      else if c == '"' then braceScanAux rest depth false false (c :: acc)
      else braceScanAux rest depth inStr false (c :: acc)
    else if c == '"' then braceScanAux rest depth true false (c :: acc)
    else if c == lbraceChar then braceScanAux rest (depth + 1) false false (c :: acc)
    else if c == rbraceChar then
      if depth == 1 then some (c :: acc).reverse
      else braceScanAux rest (depth - 1) false false (c :: acc)
    else braceScanAux rest depth false false (c :: acc)

/-- Embedding of `_extract_json_object(text, start_index)` applied to the
suffix of the text at `start_index`: skip to the first opening brace, then
run the quoted-string-aware depth scan; `none` when no balanced object is
present (in particular for a truncated object missing its closing brace). -/
def extract_json_object (s : List Char) : Option (List Char) :=
  let tail := s.dropWhile (fun c => !(c == lbraceChar))
  match tail with
  | [] => none
  | _ :: _ => braceScanAux tail 0 false false []

/-- Primary-format branch of `parse_tool_calls`: for each
`TOOL_CALL_PATTERN` group, JSON-decode it and keep entries whose object has
a `name` key; `parameters` defaults to `arguments`, then `parameters`,
then the empty object. -/
def parseBranchPrimary (jsonLoads : String → Option PyJson) (s : List Char) : List PyToolCall :=
  (scanFindall matchToolCallAt s).foldl
    (fun acc grp =>
      match jsonLoads (String.mk grp) with
      | some (PyJson.obj fs) =>
        if pyHasKey fs "name" then
          acc ++ [{ name := pyGetN fs "name",
                    parameters :=
                      if pyHasKey fs "arguments" then pyGetN fs "arguments"
                      else if pyHasKey fs "parameters" then pyGetN fs "parameters"
                      else PyJson.obj [] }]
        else acc
      | _ => acc)
    []

/-- Named-tag branch of `parse_tool_calls`: tags other than `tool_call`
wrapping a JSON object; the tool name falls back to the tag, the
parameters fall back from `arguments` to `parameters` to the object's
non-`name` fields, and non-dict parameters collapse to the empty object. -/
def parseBranchNamedTag (jsonLoads : String → Option PyJson) (s : List Char) : List PyToolCall :=
  (scanFindall matchNamedTagAt s).foldl
    (fun acc tg =>
      let tag := tg.1
      let jsonStr := tg.2
      if String.mk (tag.map lowerChar) == "tool_call" then acc
      else
        match jsonLoads (String.mk jsonStr) with
        | some (PyJson.obj fs) =>
          let nameV := pyGetN fs "name"
          let name := if pyTruthy nameV then nameV else PyJson.str (String.mk tag)
          let params0 :=
            if pyTruthy (pyGetN fs "arguments") then pyGetN fs "arguments"
            else pyGetN fs "parameters"
          let params1 :=
            if pyIsNull params0 then PyJson.obj (fs.filter (fun p => !(p.1 == "name")))
            else params0
          acc ++ [{ name := name,
                    parameters := if pyIsDict params1 then params1 else PyJson.obj [] }]
        | some _ => acc
        | none => acc)
    []

/-- Malformed-tag branch of `parse_tool_calls`: after every stray
`<tool_call>`/`</tool_call>` tag, extract the first balanced JSON object,
decode it, and keep dict results with a `name` key. -/
def parseBranchAdjacentTag (jsonLoads : String → Option PyJson) (s : List Char) : List PyToolCall :=
  (scanFindall matchToolTagAt s).foldl
    (fun acc suffix =>
      match extract_json_object suffix with
      | none => acc
      | some jsonStr =>
        match jsonLoads (String.mk jsonStr) with
        | some (PyJson.obj fs) =>
          if pyHasKey fs "name" then
            acc ++ [{ name := pyGetN fs "name",
                      parameters :=
                        if pyHasKey fs "arguments" then pyGetN fs "arguments"
                        else if pyHasKey fs "parameters" then pyGetN fs "parameters"
                        else PyJson.obj [] }]
          else acc
        | _ => acc)
    []

/-- The `functools[...]` branch of `parse_tool_calls`: the bracketed group must
decode to a JSON list; entries with a `name` key are kept, `parameters`
defaulting to `arguments` or the empty object. -/
def parseBranchFunctools (jsonLoads : String → Option PyJson) (s : List Char) : List PyToolCall :=
  (scanFindall matchFunctoolsAt s).foldl
    (fun acc grp =>
      match jsonLoads (String.mk grp) with
      | some (PyJson.arr items) =>
        acc ++ items.foldl
          (fun acc2 item =>
            match item with
            | PyJson.obj fs =>
              if pyHasKey fs "name" then
                acc2 ++ [{ name := pyGetN fs "name",
                           parameters :=
                             if pyHasKey fs "arguments" then pyGetN fs "arguments"
                             else PyJson.obj [] }]
              else acc2
            | _ => acc2)
          []
      | _ => acc)
    []

/-- The `JSON_FUNCTION_PATTERN` branch of `parse_tool_calls`. -/
def parseBranchJsonFunction (jsonLoads : String → Option PyJson) (s : List Char) : List PyToolCall :=
  (scanFindall matchJsonFunctionAt s).foldl
    (fun acc fp =>
      match jsonLoads (String.mk fp.2) with
      | some params => acc ++ [{ name := PyJson.str (String.mk fp.1), parameters := params }]
      | none => acc)
    []

/-- Embedding of `parse_tool_calls(response)`.  JSON decoding
(`json.loads`) is passed in as `jsonLoads` (`none` models
`json.JSONDecodeError`); the five recognition branches are tried in the
source's order, each used only when all earlier branches produced no tool
call. -/
def parse_tool_calls (jsonLoads : String → Option PyJson) (response : String) : List PyToolCall :=
  let s := response.data
  let b1 := parseBranchPrimary jsonLoads s
  if !b1.isEmpty then b1
  else
    let b2 := parseBranchNamedTag jsonLoads s
    if !b2.isEmpty then b2
    else
      let b3 := parseBranchAdjacentTag jsonLoads s
      if !b3.isEmpty then b3
      else
        let b4 := parseBranchFunctools jsonLoads s
        if !b4.isEmpty then b4
        else parseBranchJsonFunction jsonLoads s

/-- Modelled from the spec: `has_tool_intent_markers` (the spec's
`looksLikeFailedToolCall(text, allowedNames)`) is imported by
`src/providers/local.py` and exercised by `tests/test_tool_parser.py`, but
its definition is absent from `src/tools/parser.py`.  Per the spec it is
the heuristic that is true when "text names an allowed tool and contains
an opening brace but did not parse cleanly" (the caller applies it only
after parsing yielded nothing), and false for plain text naming no allowed
tool. -/
def has_tool_intent_markers (text : String) (allowed_names : List String) : Bool :=
  allowed_names.any (fun name => containsSub name.data text.data)
    && containsSub [lbraceChar] text.data


/- ## Provider session: `src/providers/local.py` -/

/-- A tool call as handled by `_emit_local_llm_result` and
`validate_tool_call`: a dictionary with a string `name` and a string-keyed
parameter map (only string parameter values are inspected by the code the
claims concern, via `parameters.get("farewell_message")`). -/
structure LocalToolCall where
  name : String
  parameters : List (String × String)
deriving DecidableEq

/-- Python `params.get(k)` on a tool call's parameter dictionary. -/
def paramGet (params : List (String × String)) (k : String) : Option String :=
  match params with
  | [] => none
  | (k', v) :: rest => if k' == k then some v else paramGet rest k

/-- Python `str.strip()` on ASCII whitespace. -/
def pyStrip (s : String) : String :=
  String.mk (((s.data.dropWhile (fun c => isWsChar c)).reverse.dropWhile (fun c => isWsChar c)).reverse)

/-- Embedding of `validate_tool_call(tool_call, available_tools)` from
`src/tools/parser.py`: pure name-membership check. -/
def validate_tool_call (tool_call : LocalToolCall) (available_tools : List String) : Bool :=
  available_tools.contains tool_call.name

/-- The sensitive transfer-type tool names suppressed by
`_emit_local_llm_result` when the caller's last utterance shows no
transfer intent. -/
def transfer_tool_names : List String :=
  ["live_agent_transfer", "blind_transfer", "attended_transfer", "request_transfer", "transfer"]

/-- Embedding of `LocalProvider._extract_hangup_farewell`: the first
`hangup_call` tool call with a non-empty (stripped) `farewell_message`
parameter. -/
def extract_hangup_farewell : List LocalToolCall → Option String
  | [] => none
  | tc :: rest =>
    if pyStrip tc.name == "hangup_call" then
      let farewell := pyStrip ((paramGet tc.parameters "farewell_message").getD "")
      if farewell.isEmpty then extract_hangup_farewell rest else some farewell
    else extract_hangup_farewell rest

/-- The externally observable events `_emit_local_llm_result` produces via
`self.on_event`. -/
inductive ProviderEvent where
  | agentTranscript (call_id : Option String) (text : String) : ProviderEvent
  | toolCall (call_id : Option String) (tool_calls : List LocalToolCall) (text : String) : ProviderEvent
deriving DecidableEq

/-- Embedding of `LocalProvider._emit_local_llm_result`, parameterised by
the transfer-intent heuristic `transfer_intent` (abstracting
`LocalProvider._looks_like_transfer_intent`, a keyword/regex predicate on
the caller's last utterance: the claims hold for every such predicate).
`allowed_tools` is `sorted(self._allowed_tools)`; `last_user_transcript`
is `self._last_user_transcript_by_call.get(call_id, "")`.  Mirrors the
source:
* allow-list filtering runs only when both the tool-call list and the
  allow-list are non-empty, and collapses to `None` when nothing survives;
* transfer-type tool calls are dropped when `call_id` is set and the last
  user utterance shows no transfer intent;
* a `hangup_call` farewell message replaces the spoken text;
* an `agent_transcript` event precedes the `ToolCall` event, which is
  emitted only when tool calls survived.
The first block (allow-list filtering, which runs only when both the
tool-call list and the allow-list are non-empty) is
`normalize_allowlist`: -/
def normalize_allowlist (allowed_tools : List String)
    (tool_calls : Option (List LocalToolCall)) : Option (List LocalToolCall) :=
  match tool_calls with
  | some tcs =>
    if !tcs.isEmpty && !allowed_tools.isEmpty then
      let filtered := tcs.filter (fun tc => validate_tool_call tc allowed_tools)
      if !filtered.isEmpty then some filtered else none
    else tool_calls
  | none => none

/-- Second block of `_emit_local_llm_result`: when a call id is set and
the caller's last utterance shows no transfer intent, transfer-type tool
calls are dropped (`kept_tool_calls or None`). -/
def suppress_transfer_without_intent (transfer_intent : String → Bool)
    (last_user_transcript : String) (call_id : Option String)
    (normalized : Option (List LocalToolCall)) : Option (List LocalToolCall) :=
  match normalized, call_id with
  | some tcs, some _ =>
    if !tcs.isEmpty && !(transfer_intent last_user_transcript) then
      let kept := tcs.filter (fun tc => !(transfer_tool_names.contains (pyStrip tc.name)))
      if !kept.isEmpty then some kept else none
    else normalized
  | _, _ => normalized

/-- Embedding of `LocalProvider._emit_local_llm_result` (see the block
comments on the two stages above): filtering, transfer suppression,
farewell substitution, then the `agent_transcript` and `ToolCall`
events. -/
def emit_local_llm_result (transfer_intent : String → Bool)
    (allowed_tools : List String) (last_user_transcript : String)
    (call_id : Option String) (llm_text : String) (clean_text : Option String)
    (tool_calls : Option (List LocalToolCall)) : List ProviderEvent :=
  let response_text := pyStrip (clean_text.getD llm_text)
  let normalized2 : Option (List LocalToolCall) :=
    suppress_transfer_without_intent transfer_intent last_user_transcript call_id
      (normalize_allowlist allowed_tools tool_calls)
  let response_text2 :=
    match extract_hangup_farewell (normalized2.getD []) with
    | some farewell => farewell
    | none => response_text
  (if response_text2.isEmpty then [] else [ProviderEvent.agentTranscript call_id response_text2])
    ++ (match normalized2 with
        | some tcs => if tcs.isEmpty then [] else [ProviderEvent.toolCall call_id tcs response_text2]
        | none => [])

/-- The repair-turn trigger of `LocalProvider._process_llm_text_fallback`:
after `parse_response_with_tools` produced `tool_calls`, a repair turn is
attempted iff the effective policy is not `off`, parsing yielded no tool
calls, the allow-list is non-empty and `has_tool_intent_markers` fires.
(The `off` branch instead discards any parsed tool calls.) -/
def process_llm_text_fallback_triggers_repair (jsonLoads : String → Option PyJson)
    (effective_tool_policy : String) (allowed : List String) (llm_text : String) : Bool :=
  let tool_calls := parse_tool_calls jsonLoads llm_text
  if effective_tool_policy == "off" then false
  else if tool_calls.isEmpty && !allowed.isEmpty && has_tool_intent_markers llm_text allowed then
    true
  else false

/-- State of the structured tool gateway for one request id:
whether the id is still in `_pending_llm_tool_responses` and whether the
timeout task in `_llm_tool_timeout_tasks` has been cancelled via
`_cancel_gateway_timeout`. -/
structure GatewayState where
  pending : Bool
  timeoutCancelled : Bool
deriving DecidableEq

/-- The two finalisation attempts that race for one request id. -/
inductive GatewayEvent where
  | toolResponse : GatewayEvent
  | timeoutFire : GatewayEvent
deriving DecidableEq

/-- How the final result for the request was produced. -/
inductive GatewayFinal where
  | structured : GatewayFinal
  | parserFallback : GatewayFinal
deriving DecidableEq

/-- One step of the gateway race, following the source:
* `_handle_llm_tool_response` pops the request id from
  `_pending_llm_tool_responses`; if the entry was present it cancels the
  timeout task and emits the final result, otherwise the response is
  dropped as stale (no emission);
* `_timeout_fallback` pops the same entry after its sleep; if the entry
  was present it emits the parser-fallback result, otherwise it returns
  without effect.
Each handler runs atomically on the event loop; the `dict.pop` is the
claim operation. -/
def gateway_step (s : GatewayState) : GatewayEvent → GatewayState × Option GatewayFinal
  | GatewayEvent.toolResponse =>
    if s.pending then ({ pending := false, timeoutCancelled := true }, some GatewayFinal.structured)
    else (s, none)
  | GatewayEvent.timeoutFire =>
    if s.pending then ({ s with pending := false }, some GatewayFinal.parserFallback)
    else (s, none)

/-- Run a sequence of gateway events, collecting every emitted final
result. -/
def gateway_run (s : GatewayState) : List GatewayEvent → GatewayState × List GatewayFinal
  | [] => (s, [])
  | e :: es =>
    let step := gateway_step s e
    let rest := gateway_run step.1 es
    (rest.1, (step.2.toList) ++ rest.2)

/-- The initial state after `_dispatch_llm_tool_gateway_request` stored the
pending entry and started the (uncancelled) timeout task. -/
def gateway_initial : GatewayState := { pending := true, timeoutCancelled := false }

/- ### Outbound audio loop: `_send_loop` -/

/-- Outcome of one `websocket.send` attempt. -/
inductive SendOutcome where
  | ok : SendOutcome
  | connectionClosed : SendOutcome
  | otherError : SendOutcome
deriving DecidableEq

/-- Observable retry behaviour of `_send_loop` for one batch. -/
structure SendBatchTrace where
  sendAttempts : ℕ
  reconnectAttempts : ℕ
  delivered : Bool
deriving DecidableEq

/-- Embedding of the per-batch send/retry structure of
`LocalProvider._send_loop`: the batch message is sent once; only on
`websockets.exceptions.ConnectionClosed` is `_reconnect` called, and only
if it succeeds is the same message resent exactly once (a failing resend
is logged and abandoned); any other send error is logged without retry.
`first`/`second` are the outcomes of the two possible send attempts and
`reconnect_ok` the result of `_reconnect`. -/
def send_loop_send_batch (first : SendOutcome) (reconnect_ok : Bool)
    (second : SendOutcome) : SendBatchTrace :=
  match first with
  | SendOutcome.ok => { sendAttempts := 1, reconnectAttempts := 0, delivered := true }
  | SendOutcome.otherError => { sendAttempts := 1, reconnectAttempts := 0, delivered := false }
  | SendOutcome.connectionClosed =>
    if reconnect_ok then
      { sendAttempts := 2, reconnectAttempts := 1, delivered := second == SendOutcome.ok }
    else
      { sendAttempts := 1, reconnectAttempts := 1, delivered := false }

/- ## Streaming playback engine: `src/core/streaming_playback_manager.py` -/

/-- Embedding of `math.ceil(a / b)` for natural `a` and positive natural `b`. -/
def ceilDivNat (a b : ℕ) : ℕ := (a + b - 1) / b

/-- The streaming configuration values the threshold derivation reads
(raw, as configured; the code applies its own clamping). -/
structure StreamingConfigMs where
  min_start_ms : ℤ
  low_watermark_ms : ℤ
  greeting_min_start_ms : ℤ
  chunk_size_ms : ℤ
  jitter_buffer_ms : ℤ

/-- Embedding of `max(1, self.chunk_size_ms)` — the divisor used for every chunk-count
derivation (the constructor and `start_streaming_playback` use the same
clamp). -/
def chunkDivisor (c : StreamingConfigMs) : ℕ := max 1 c.chunk_size_ms.toNat

/-- Constructor: `self.min_start_chunks = max(1, ceil(max(0, min_start_ms) / max(1, chunk_size_ms)))`. -/
def cfg_min_start_chunks (c : StreamingConfigMs) : ℕ :=
  max 1 (ceilDivNat c.min_start_ms.toNat (chunkDivisor c))

/-- Constructor: `self.low_watermark_chunks = max(0, ceil(max(0, low_watermark_ms) / max(1, chunk_size_ms)))`. -/
def cfg_low_watermark_chunks (c : StreamingConfigMs) : ℕ :=
  ceilDivNat c.low_watermark_ms.toNat (chunkDivisor c)

/-- Constructor: `self.greeting_min_start_chunks`, which falls back to
`self.min_start_chunks` unless a positive greeting warm-up is configured. -/
def cfg_greeting_min_start_chunks (c : StreamingConfigMs) : ℕ :=
  if 0 < c.greeting_min_start_ms then
    max 1 (ceilDivNat c.greeting_min_start_ms.toNat (chunkDivisor c))
  else cfg_min_start_chunks c

/-- In `start_streaming_playback`: the jitter-buffer capacity
`jb_chunks = max(1, ceil(max(0, jitter_buffer_ms) / max(1, chunk_size_ms)))`. -/
def jb_capacity_chunks (c : StreamingConfigMs) : ℕ :=
  max 1 (ceilDivNat c.jitter_buffer_ms.toNat (chunkDivisor c))

/-- In `start_streaming_playback`: the per-stream warm-up threshold
`min_start_chunks = max(1, min(configured_min_start, jb_chunks))`, the
configured value depending on the playback type. -/
def stream_min_start_chunks (c : StreamingConfigMs) (is_greeting : Bool) : ℕ :=
  let configured := if is_greeting then cfg_greeting_min_start_chunks c else cfg_min_start_chunks c
  max 1 (min configured (jb_capacity_chunks c))

/-- In `start_streaming_playback`: the per-stream pause threshold — zero when
unconfigured, otherwise clamped to `max(0, jb_chunks - 1)`. -/
def stream_low_watermark_chunks (c : StreamingConfigMs) : ℕ :=
  let configured := cfg_low_watermark_chunks c
  if configured == 0 then 0
  else min configured (jb_capacity_chunks c - 1)

/- ### Cleanup and stop -/

/-- The per-call entry of `self.active_streams` (the fields the cleanup and
stop paths read). -/
structure StreamInfo where
  stream_id : String
  playback_type : String
  min_start_chunks : ℕ
  low_watermark_chunks : ℕ
  end_reason : Option String
deriving DecidableEq

/-- First value bound to a key in an association list (Python `dict`
lookup). -/
def alookup (k : String) : List (String × α) → Option α
  | [] => none
  | (k', v) :: rest => if k' == k then some v else alookup k rest

/-- Remove a key from an association list (`del d[k]` / `d.pop(k, None)`). -/
def aerase (k : String) : List (String × α) → List (String × α)
  | [] => []
  | p :: rest => if p.1 == k then aerase k rest else p :: aerase k rest

/-- The manager state touched by `_cleanup_stream` and
`stop_streaming_playback`.  Jitter buffers are the queued chunk lists;
keepalive tasks are represented by their call ids. -/
structure SPMState where
  active_streams : List (String × StreamInfo)
  jitter_buffers : List (String × List (List ℕ))
  keepalive_tasks : List String
  frame_remainders : List (String × List ℕ)
  startup_ready : List (String × Bool)
deriving DecidableEq

/-- Transport configuration used by the remainder flush. -/
structure SPMTransportConfig where
  is_audiosocket : Bool
  frame_size : ℕ
deriving DecidableEq

/-- Externally observable side effects of the cleanup/stop paths. -/
inductive SPMEvent where
  | flushFrame (call_id : String) (frame : List ℕ) : SPMEvent
  | gatingRelease (call_id : String) (stream_id : String) : SPMEvent
deriving DecidableEq

/-- The final frame sent by the remainder flush: on AudioSocket the
remainder is zero-padded to the frame size and truncated to one frame;
other transports send it as-is. -/
def flushedFrame (cfg : SPMTransportConfig) (rem : List ℕ) : List ℕ :=
  if cfg.is_audiosocket then
    (rem ++ List.replicate (cfg.frame_size - rem.length) 0).take cfg.frame_size
  else rem

/-- Embedding of `_cleanup_stream(call_id, stream_id)` (the grace-period
sleep is timing only).  In source order:
* flush the carried `frame_remainders[call_id]` as a final frame only when
  it is non-empty;
* release TTS gating (`on_tts_end` or `clear_gating_token`) —
  unconditionally, on every invocation;
* remove the call from `active_streams`, `jitter_buffers`,
  `_startup_ready` and finally `frame_remainders`.
`keepalive_tasks` is not touched by `_cleanup_stream` itself. -/
def cleanup_stream (cfg : SPMTransportConfig) (s : SPMState)
    (call_id stream_id : String) : SPMState × List SPMEvent :=
  let rem := (alookup call_id s.frame_remainders).getD []
  let flushEvents := if rem.isEmpty then [] else [SPMEvent.flushFrame call_id (flushedFrame cfg rem)]
  let events := flushEvents ++ [SPMEvent.gatingRelease call_id stream_id]
  let s' : SPMState :=
    { active_streams := aerase call_id s.active_streams
      jitter_buffers := aerase call_id s.jitter_buffers
      keepalive_tasks := s.keepalive_tasks
      frame_remainders := aerase call_id s.frame_remainders
      startup_ready := aerase call_id s.startup_ready }
  (s', events)

/-- Embedding of `stop_streaming_playback(call_id)`: without an
`active_streams` entry it logs and returns `False` before touching any
state; otherwise it cancels the streaming and keepalive tasks (removing
the keepalive entry) and runs `_cleanup_stream`. -/
def stop_streaming_playback (cfg : SPMTransportConfig) (s : SPMState)
    (call_id : String) : Bool × SPMState × List SPMEvent :=
  match alookup call_id s.active_streams with
  | none => (false, s, [])
  | some info =>
    let s1 : SPMState := { s with keepalive_tasks := s.keepalive_tasks.filter (fun k => !(k == call_id)) }
    let cleaned := cleanup_stream cfg s1 call_id info.stream_id
    (true, cleaned.1, cleaned.2)

/- ## Theorems -/

/-- C4 counterexample: the claim "resample(x, r, r) returns x unchanged
together with a cleared state" is false at the concrete input
`x = [1]`, `r = 8000`, carried state `(5.0,)`: the source's equal-rate
branch returns the carried state unchanged rather than clearing it. -/
theorem resample_identity_counterexample :
    ¬ (resample_audio [1] 8000 8000 (some 5) = ([1], none)) := by
  decide

/-- C4 (amended): for every input, every carried state and every rate,
`resample(x, r, r)` returns `x` unchanged together with the carried state
passed through unchanged (not cleared). -/
theorem resample_identity_preserves_state (x : List ℤ) (r : ℕ) (s : Option ℚ) :
    resample_audio x r r s = (x, s) := by
  unfold resample_audio
  rw [if_pos (Or.inr rfl)]

/-- C7: for every non-empty PCM16 input of `N` samples and every pair of
distinct positive rates `A`, `B`, with or without carried state,
`resample` returns exactly `round(N * B / A)` output samples, where
`round` is Python's built-in round (half to even) used by the source. -/
theorem resample_output_sample_count (pcm : List ℤ) (A B : ℕ) (s : Option ℚ)
    (hne : pcm ≠ []) (hAB : A ≠ B) (hA : 0 < A) (hB : 0 < B) :
    (resample_audio pcm A B s).1.length
      = (pyRound ((pcm.length : ℚ) * (B : ℚ) / (A : ℚ))).toNat := by
  unfold resample_audio
  rw [if_neg (by simp [hne, hAB])]
  rcases s with _ | q <;> split <;> simp_all [List.length_map, List.length_range]
  all_goals
    split
    next hle => simp [Int.toNat_of_nonpos hle]
    next hgt => simp [List.length_map, List.length_range]

/-- Witness for C7 at a concrete input: 2 samples resampled from 8 kHz to
16 kHz. -/
theorem resample_output_sample_count_witness :
    ([100, 200] : List ℤ) ≠ [] ∧ (8000 : ℕ) ≠ 16000 ∧ (0 : ℕ) < 8000 ∧ (0 : ℕ) < 16000 ∧
      (resample_audio [100, 200] 8000 16000 none).1.length
        = (pyRound ((([100, 200] : List ℤ).length : ℚ) * (16000 : ℚ) / (8000 : ℚ))).toNat :=
  ⟨by decide, by decide, by decide, by decide,
    resample_output_sample_count [100, 200] 8000 16000 none
      (by decide) (by decide) (by decide) (by decide)⟩

/-- Helper: once the pending entry for the request id is gone, no further
event emits a final result, and the state no longer changes. -/
theorem gateway_run_claimed (es : List GatewayEvent) (c : Bool) :
    gateway_run { pending := false, timeoutCancelled := c } es
      = ({ pending := false, timeoutCancelled := c }, []) := by
  induction es with
  | nil => rfl
  | cons e es ih => cases e <;> simp [gateway_run, gateway_step, ih]

/-- C1: for a dispatched tool-gateway request (pending entry present,
timeout task armed), any non-empty sequence of finalisation attempts —
structured responses and timeout firings in any order — emits exactly one
final result (the first attempt claims the id, every later one is a
no-op); moreover a structured response that claims the id cancels the
timeout task, and a response arriving once the id is already claimed is
dropped as stale with no emission and no state change. -/
theorem gateway_exactly_once (es : List GatewayEvent) (hne : es ≠ []) :
    (gateway_run gateway_initial es).2.length = 1
      ∧ (gateway_step gateway_initial GatewayEvent.toolResponse).1.timeoutCancelled = true
      ∧ (∀ c, gateway_step { pending := false, timeoutCancelled := c } GatewayEvent.toolResponse
            = ({ pending := false, timeoutCancelled := c }, none)) := by
  refine ⟨?_, rfl, fun c => rfl⟩
  match es with
  | e :: rest =>
    cases e <;> simp [gateway_run, gateway_step, gateway_initial, gateway_run_claimed]

/-- Witness for C1: a structured response followed by a late timeout
firing produces exactly one final result. -/
theorem gateway_exactly_once_witness :
    ([GatewayEvent.toolResponse, GatewayEvent.timeoutFire] : List GatewayEvent) ≠ [] ∧
      (gateway_run gateway_initial [GatewayEvent.toolResponse, GatewayEvent.timeoutFire]).2.length = 1 :=
  ⟨by decide,
    (gateway_exactly_once [GatewayEvent.toolResponse, GatewayEvent.timeoutFire] (by decide)).1⟩

/-- C9: the outbound loop's per-batch behaviour — at most two send
attempts ever happen for one batch, `_reconnect` is attempted exactly once
when the send failed with a closed connection, and never otherwise. -/
theorem send_loop_single_resend :
    (∀ (reconnect_ok : Bool) (second : SendOutcome),
        (send_loop_send_batch SendOutcome.connectionClosed reconnect_ok second).reconnectAttempts = 1)
      ∧ (∀ (first : SendOutcome) (reconnect_ok : Bool) (second : SendOutcome),
          (send_loop_send_batch first reconnect_ok second).sendAttempts ≤ 2
            ∧ (send_loop_send_batch first reconnect_ok second).reconnectAttempts ≤ 1) := by
  constructor
  · intro r second
    cases r <;> rfl
  · intro f r second
    cases f <;> cases r <;> simp [send_loop_send_batch]

/-- C3: for every configuration of `min_start_ms`, `low_watermark_ms`,
`greeting_min_start_ms`, `chunk_size_ms` and `jitter_buffer_ms`, and for
both playback types, the per-stream `min_start_chunks` and
`low_watermark_chunks` recorded at stream creation are each at most the
jitter-buffer capacity (`max(1, ceil(jitter_buffer_ms / chunk_size_ms))`). -/
theorem stream_chunk_thresholds_le_capacity (c : StreamingConfigMs) (is_greeting : Bool) :
    stream_min_start_chunks c is_greeting ≤ jb_capacity_chunks c
      ∧ stream_low_watermark_chunks c ≤ jb_capacity_chunks c := by
  have hjb : 1 ≤ jb_capacity_chunks c := le_max_left 1 _
  constructor
  · simp only [stream_min_start_chunks]
    have hmin := min_le_right
      (if is_greeting then cfg_greeting_min_start_chunks c else cfg_min_start_chunks c)
      (jb_capacity_chunks c)
    omega
  · simp only [stream_low_watermark_chunks]
    split
    · exact Nat.zero_le _
    · have hmin := min_le_right (cfg_low_watermark_chunks c) (jb_capacity_chunks c - 1)
      omega

/-- Helper: with a non-empty allow-list, every tool call surviving the
allow-list filter of `_emit_local_llm_result` has an allow-listed name. -/
theorem normalize_allowlist_mem (allowed : List String) (o : Option (List LocalToolCall))
    (l : List LocalToolCall) (hallow : allowed ≠ [])
    (h : normalize_allowlist allowed o = some l) :
    ∀ tc ∈ l, tc.name ∈ allowed := by
  intro tc htc
  have hA : allowed.isEmpty = false := by
    cases allowed with
    | nil => exact absurd rfl hallow
    | cons a as => rfl
  rcases o with _ | tcs
  · simp [normalize_allowlist] at h
  · rcases tcs with _ | ⟨t, ts⟩
    · simp only [normalize_allowlist, List.isEmpty_nil] at h
      simp at h
      subst h
      simp at htc
    · simp only [normalize_allowlist, List.isEmpty_cons, hA] at h
      simp only [Bool.not_false, Bool.and_self] at h
      by_cases hf : (((t :: ts).filter fun tc => validate_tool_call tc allowed).isEmpty)
      · simp [hf] at h
      · simp [hf] at h
        subst h
        have hm := List.mem_filter.mp htc
        exact List.mem_of_elem_eq_true hm.2

/-- Helper: the transfer-suppression stage only removes tool calls — every
member of its output was a member of its input. -/
theorem suppress_transfer_subset (transfer_intent : String → Bool) (user : String)
    (call_id : Option String) (o : Option (List LocalToolCall)) (l : List LocalToolCall)
    (h : suppress_transfer_without_intent transfer_intent user call_id o = some l) :
    ∃ l0, o = some l0 ∧ ∀ tc ∈ l, tc ∈ l0 := by
  rcases o with _ | tcs
  · rcases call_id with _ | cid <;> simp [suppress_transfer_without_intent] at h
  · refine ⟨tcs, rfl, ?_⟩
    intro tc htc
    rcases call_id with _ | cid
    · simp [suppress_transfer_without_intent] at h
      subst h
      exact htc
    · simp only [suppress_transfer_without_intent] at h
      by_cases hcond : (!tcs.isEmpty && !transfer_intent user) = true
      · rw [if_pos hcond] at h
        by_cases hk : ((tcs.filter fun tc => !(transfer_tool_names.contains (pyStrip tc.name))).isEmpty) = true
        · rw [if_neg (by rw [hk]; decide)] at h
          exact absurd h (by simp)
        · have hx : ((tcs.filter fun tc => !(transfer_tool_names.contains (pyStrip tc.name))).isEmpty) = false :=
            Bool.not_eq_true _ ▸ eq_false_of_ne_true hk
          rw [if_pos (by rw [hx]; decide)] at h
          injection h with h2
          subst h2
          exact (List.mem_filter.mp htc).1
      · rw [if_neg hcond] at h
        injection h with h2
        subst h2
        exact htc

/-- C2 counterexample: the claim that every emitted `ToolCall` event
carries only allow-listed tool names (in particular that no tool call is
valid with an empty allow-list) is false at a concrete input: with an
empty allow-list the source skips the filter entirely
(`if normalized_tool_calls and self._allowed_tools:`), so a parsed
`fake_tool` call is emitted although it is in no allow-list. -/
theorem emit_local_llm_result_empty_allowlist_counterexample :
    ProviderEvent.toolCall (some "call-1") [⟨"fake_tool", []⟩] "hi"
        ∈ emit_local_llm_result (fun _ => false) [] "" (some "call-1") "hi" none
            (some [⟨"fake_tool", []⟩])
      ∧ "fake_tool" ∉ ([] : List String) := by
  decide

/-- C2 (amended): whenever the caller's allow-list is non-empty, every
tool call carried by an emitted `ToolCall` event has a name from the
allow-list — non-allow-listed calls are dropped before emission.  (With an
empty allow-list the filter is skipped and parsed calls pass through
unfiltered.) -/
theorem emit_local_llm_result_allowlisted
    (transfer_intent : String → Bool) (allowed : List String) (user : String)
    (call_id : Option String) (llm_text : String) (clean_text : Option String)
    (tool_calls : Option (List LocalToolCall)) (cid : Option String)
    (tcs : List LocalToolCall) (txt : String)
    (hallow : allowed ≠ [])
    (hev : ProviderEvent.toolCall cid tcs txt
        ∈ emit_local_llm_result transfer_intent allowed user call_id llm_text clean_text tool_calls) :
    ∀ tc ∈ tcs, tc.name ∈ allowed := by
  unfold emit_local_llm_result at hev
  rw [List.mem_append] at hev
  rcases hev with hev | hev
  · by_cases hr : (match extract_hangup_farewell
        (((suppress_transfer_without_intent transfer_intent user call_id
            (normalize_allowlist allowed tool_calls)).getD [])) with
      | some farewell => farewell
      | none => pyStrip (clean_text.getD llm_text)).isEmpty
    · simp only [hr, if_true] at hev
      simp at hev
    · simp only [hr, if_false] at hev
      simp at hev
  · rcases hsup : suppress_transfer_without_intent transfer_intent user call_id
        (normalize_allowlist allowed tool_calls) with _ | l
    · simp only [hsup] at hev
      simp at hev
    · simp only [hsup] at hev
      by_cases hl : l.isEmpty
      · simp [hl] at hev
      · simp only [hl, if_false] at hev
        simp at hev
        obtain ⟨l0, hnorm, hsubset⟩ := suppress_transfer_subset _ _ _ _ _ hsup
        intro tc htc
        have : tc ∈ l := by
          rw [hev.2.1] at htc
          exact htc
        exact normalize_allowlist_mem allowed tool_calls l0 hallow hnorm tc (hsubset tc this)

/-- Witness for C2 (amended) at a concrete input: an allow-listed
`hangup_call` emitted through the full pipeline. -/
theorem emit_local_llm_result_allowlisted_witness :
    (["hangup_call"] : List String) ≠ [] ∧
      (ProviderEvent.toolCall (some "c") [⟨"hangup_call", []⟩] "ok"
          ∈ emit_local_llm_result (fun _ => false) ["hangup_call"] "" (some "c") "ok" none
              (some [⟨"hangup_call", []⟩])) ∧
      (∀ tc ∈ [(⟨"hangup_call", []⟩ : LocalToolCall)],
          tc.name ∈ (["hangup_call"] : List String)) :=
  ⟨by decide, by decide,
    emit_local_llm_result_allowlisted (fun _ => false) ["hangup_call"] "" (some "c") "ok" none
      (some [⟨"hangup_call", []⟩]) (some "c") [⟨"hangup_call", []⟩] "ok"
      (by decide) (by decide)⟩

/-- C5 counterexample: the claim that the fallback path triggers a repair
turn exactly when parsing yielded no tool calls, the allow-list is
non-empty and the heuristic fires is false at a concrete input — with the
effective policy `off` all three conditions hold (truncated `hangup_call`
text containing an opening brace, allow-list `["hangup_call"]`) yet no
repair turn is attempted, because the source's first branch discards tool
handling entirely when the policy is `off`. -/
theorem fallback_repair_policy_off_counterexample :
    ¬ (process_llm_text_fallback_triggers_repair (fun _ => none) "off" ["hangup_call"]
          "hangup_call \x7b\"name\":" = true
        ↔ ((parse_tool_calls (fun _ => none) "hangup_call \x7b\"name\":").isEmpty = true
            ∧ (["hangup_call"] : List String) ≠ []
            ∧ has_tool_intent_markers "hangup_call \x7b\"name\":" ["hangup_call"] = true)) := by
  decide

/-- C5 (amended, and spec-modelled for the heuristic): with
`has_tool_intent_markers` modelled from the spec, whenever the effective
tool policy is not `off`, the provider's fallback path triggers a repair
turn exactly when parsing yielded no tool calls, the allow-list is
non-empty, and the heuristic returns true.  (When the policy is `off`, no
repair turn is ever attempted.) -/
theorem fallback_repair_trigger_characterization (jsonLoads : String → Option PyJson)
    (policy : String) (allowed : List String) (llm_text : String)
    (hpol : policy ≠ "off") :
    process_llm_text_fallback_triggers_repair jsonLoads policy allowed llm_text = true
      ↔ ((parse_tool_calls jsonLoads llm_text).isEmpty = true ∧ allowed ≠ []
          ∧ has_tool_intent_markers llm_text allowed = true) := by
  unfold process_llm_text_fallback_triggers_repair
  rw [if_neg (by simpa using hpol)]
  constructor
  · intro h
    by_cases hcond : ((parse_tool_calls jsonLoads llm_text).isEmpty && !allowed.isEmpty
        && has_tool_intent_markers llm_text allowed) = true
    · simp only [Bool.and_eq_true, Bool.not_eq_true'] at hcond
      refine ⟨hcond.1.1, ?_, hcond.2⟩
      intro hnil
      rw [hnil] at hcond
      simp at hcond
    · rw [if_neg hcond] at h
      exact absurd h (by simp)
  · intro ⟨h1, h2, h3⟩
    have hA : allowed.isEmpty = false := by
      cases allowed with
      | nil => exact absurd rfl h2
      | cons a as => rfl
    rw [if_pos (by rw [h1, hA, h3]; decide)]

/-- Witness for C5 (amended) at a concrete input: policy `compatible`,
truncated `hangup_call` text, allow-list `["hangup_call"]`. -/
theorem fallback_repair_trigger_characterization_witness :
    ("compatible" : String) ≠ "off" ∧
      (process_llm_text_fallback_triggers_repair (fun _ => none) "compatible" ["hangup_call"]
            "hangup_call \x7b\"name\":" = true
        ↔ ((parse_tool_calls (fun _ => none) "hangup_call \x7b\"name\":").isEmpty = true
            ∧ (["hangup_call"] : List String) ≠ []
            ∧ has_tool_intent_markers "hangup_call \x7b\"name\":" ["hangup_call"] = true)) :=
  ⟨by decide,
    fallback_repair_trigger_characterization (fun _ => none) "compatible" ["hangup_call"]
      "hangup_call \x7b\"name\":" (by decide)⟩

/-- C6 (code evaluation at the failing input): for the truncated/prefix
form from the repository's own test suite — plain text naming the
`hangup_call` tool followed by a JSON object cut off before its closing
brace — `parse_tool_calls` returns no tool call at all, regardless of how
JSON decoding behaves: no recognition branch matches untagged text, and
`_extract_json_object` requires a balanced object.  This contradicts the
claim (and `tests/test_tool_parser.py`), which expect the tool name to be
recovered. -/
theorem parse_tool_calls_truncated_prefix_returns_no_calls :
    ∀ jsonLoads, parse_tool_calls jsonLoads
        "*hangup_call* \x7b\"name\":\"hangup_call\",\"arguments\":" = [] :=
  fun _ => rfl

/-- Helper: a key just removed from an association list is absent. -/
theorem alookup_aerase (k : String) (l : List (String × α)) :
    alookup k (aerase k l) = none := by
  induction l with
  | nil => rfl
  | cons p rest ih =>
    by_cases h : (p.1 == k) = true
    · simp [aerase, h, ih]
    · simp only [aerase]
      rw [if_neg h]
      simp [alookup, h, ih]

/-- Helper: removing a key twice is the same as removing it once. -/
theorem aerase_aerase (k : String) (l : List (String × α)) :
    aerase k (aerase k l) = aerase k l := by
  induction l with
  | nil => rfl
  | cons p rest ih =>
    by_cases h : (p.1 == k) = true
    · simp [aerase, h, ih]
    · simp only [aerase]
      rw [if_neg h]
      simp [aerase, h, ih]

/-- C8 counterexample: the claim that a second cleanup for the same call
and stream produces no duplicate gating-release emission is false at a
concrete state (a stream with a pending frame remainder): each of the two
cleanup invocations emits the gating release once — `_cleanup_stream`
calls `on_tts_end` / `clear_gating_token` unconditionally — so the second
invocation re-emits it. -/
theorem cleanup_stream_double_gating_counterexample :
    ((cleanup_stream ⟨true, 4⟩
        (cleanup_stream ⟨true, 4⟩
          ⟨[("c", ⟨"sid", "response", 2, 1, none⟩)], [("c", [])], ["c"], [("c", [1, 2])], [("c", true)]⟩
          "c" "sid").1
        "c" "sid").2.count (SPMEvent.gatingRelease "c" "sid") = 1)
      ∧ ((cleanup_stream ⟨true, 4⟩
          ⟨[("c", ⟨"sid", "response", 2, 1, none⟩)], [("c", [])], ["c"], [("c", [1, 2])], [("c", true)]⟩
          "c" "sid").2.count (SPMEvent.gatingRelease "c" "sid") = 1) := by
  decide

/-- C8 (amended): invoking the engine's cleanup a second time for the same
call and stream id produces no duplicate fallback or flush side effects
and no error, and leaves the state unchanged — but the gating release is
re-emitted on every invocation (the second invocation's only side effect
is a second gating-release call). -/
theorem cleanup_stream_second_invocation (cfg : SPMTransportConfig) (s : SPMState)
    (call_id stream_id : String) :
    (cleanup_stream cfg (cleanup_stream cfg s call_id stream_id).1 call_id stream_id).2
        = [SPMEvent.gatingRelease call_id stream_id]
      ∧ (cleanup_stream cfg (cleanup_stream cfg s call_id stream_id).1 call_id stream_id).1
        = (cleanup_stream cfg s call_id stream_id).1 := by
  constructor
  · simp [cleanup_stream, alookup_aerase]
  · simp [cleanup_stream, aerase_aerase]

/-- C10: for every call id with no active stream entry,
`stop_streaming_playback` returns `False` and leaves all per-call manager
state (active streams, jitter buffers, keepalive tasks, frame remainders,
startup-ready flags) unchanged, emitting nothing. -/
theorem stop_streaming_playback_no_stream_noop (cfg : SPMTransportConfig) (s : SPMState)
    (call_id : String) (h : alookup call_id s.active_streams = none) :
    stop_streaming_playback cfg s call_id = (false, s, []) := by
  unfold stop_streaming_playback
  rw [h]

/-- Witness for C10 at a concrete input: stopping a call that has no
stream entry in a manager holding state for a different call. -/
theorem stop_streaming_playback_no_stream_noop_witness :
    alookup "call-2"
        (SPMState.mk [("c", ⟨"sid", "response", 2, 1, none⟩)] [] ["c"] [] []).active_streams = none
      ∧ stop_streaming_playback ⟨false, 160⟩
          (SPMState.mk [("c", ⟨"sid", "response", 2, 1, none⟩)] [] ["c"] [] []) "call-2"
        = (false, SPMState.mk [("c", ⟨"sid", "response", 2, 1, none⟩)] [] ["c"] [] [], []) :=
  ⟨by decide,
    stop_streaming_playback_no_stream_noop ⟨false, 160⟩
      (SPMState.mk [("c", ⟨"sid", "response", 2, 1, none⟩)] [] ["c"] [] []) "call-2" (by decide)⟩
